import Mathlib

/-!
# Verification of the focus-tracker session/timer core (`src/main.py`)

This file shallowly embeds the session/timer state machine and the stats
helpers of `src/main.py` (class `FocusApp`) and settles the frozen claims
about them.

Modelling conventions:
* Python `int` is modelled by `Int` (`//` by `Int.ediv`, `%` by `Int.emod`,
  which agree with Python's floor semantics).
* `self.remaining : int | None` is `Option Int`; likewise `break_remaining`.
* Textual's interval timers are modelled by booleans (`tickTimerActive`,
  `breakTimerActive`): a tick event is a no-op unless the corresponding
  timer is active, mirroring the fact that a stopped `set_interval` handle
  delivers no callbacks.
* Mounted widgets that gate user events (the note prompt, the break popup,
  the disabled state of the break-start button) are booleans; a button/input
  event is a no-op when its widget is absent or disabled, since Textual
  cannot deliver events for widgets that do not exist.
* `time.time()` is a logical clock: each successful arm captures the current
  clock value as `start_ts` and advances the clock, so distinct arms capture
  distinct timestamps (real wall-clock time strictly increases between UI
  events).
* The SQLite `sessions` table is a list of `Row`s; `INSERT` appends with a
  fresh id (`id INTEGER PRIMARY KEY` auto-assigns increasing ids).
* Python `str.strip` is `pyStrip` (drop leading/trailing whitespace),
  `str.isdigit` is `pyDigits`, and `int(...)` on a string is `pyInt`
  (optional surrounding whitespace, optional sign, decimal digits).
* `call_after_refresh(f)` schedules `f` on the same single-threaded event
  loop before the next user event; it is inlined into the tick transition.
-/

/-- Model of Python `str.strip()`: drop leading and trailing whitespace. -/
def pyStrip (s : String) : String :=
  ⟨((s.data.dropWhile Char.isWhitespace).reverse.dropWhile Char.isWhitespace).reverse⟩

/-- Model of Python `str.isdigit()`: nonempty and all characters are digits. -/
def pyDigits (s : String) : Bool :=
  !s.data.isEmpty && s.data.all Char.isDigit

/-- Numeric value of a decimal digit string (the value `int(s)` returns when
`s.isdigit()` holds). -/
def digitsVal (cs : List Char) : Nat :=
  cs.foldl (fun n c => n * 10 + (c.toNat - 48)) 0

/-- Model of Python `int(s)` on a string: strip whitespace, allow one leading
sign, then decimal digits; `none` models the `ValueError` branch. -/
def pyInt (s : String) : Option Int :=
  match (pyStrip s).data with
  | [] => none
  | '-' :: cs =>
      if !cs.isEmpty && cs.all Char.isDigit then some (-(digitsVal cs : Int)) else none
  | '+' :: cs =>
      if !cs.isEmpty && cs.all Char.isDigit then some ((digitsVal cs : Int)) else none
  | cs =>
      if cs.all Char.isDigit then some ((digitsVal cs : Int)) else none

/-- Model of the Python idiom `value.strip() or None` used for tags. -/
def strip_or_none (t : String) : Option String :=
  let t' := pyStrip t
  if t'.data.isEmpty then none else some t'

/-- One persisted row of the `sessions` table (`get_db`, src/main.py:12-23):
`id INTEGER PRIMARY KEY, start_ts REAL, duration_min INTEGER, tag TEXT, note TEXT`.
`tag` is `Option String` because `_start_session` stores `None` for an empty
tag, while `_save_edit_session` stores a (possibly empty) string. -/
structure Row where
  id : Int
  start_ts : Int
  duration_min : Int
  tag : Option String
  note : String
deriving DecidableEq

/-- The transient state of `FocusApp` (src/main.py:25-47 and the attributes
assigned in `compose`/`_start_session`/`_prompt_break`/`_start_break`),
together with the model clock and the persisted `sessions` table. -/
structure St where
  remaining : Option Int
  duration : Int
  tag : Option String
  start_ts : Int
  tickTimerActive : Bool
  paused : Bool
  notePrompt : Bool
  breakPopup : Bool
  breakStartDisabled : Bool
  breakRemaining : Option Int
  breakDefault : Int
  breakTimerActive : Bool
  pomodoro_mode : Bool
  pomo_focus : Int
  pomo_short_break : Int
  pomo_long_break : Int
  pomo_cycles : Int
  pomo_current_cycle : Int
  pomo_in_break : Bool
  daily_goal : Int
  weekly_goal : Int
  clock : Int
  db : List Row
  nextId : Int
deriving DecidableEq

/-- The state after `__init__`/`compose` with an empty store
(src/main.py:35-47, 52-53). -/
def init : St :=
  { remaining := none
    duration := 0
    tag := none
    start_ts := 0
    tickTimerActive := false
    paused := false
    notePrompt := false
    breakPopup := false
    breakStartDisabled := false
    breakRemaining := none
    breakDefault := 5
    breakTimerActive := false
    pomodoro_mode := false
    pomo_focus := 25
    pomo_short_break := 5
    pomo_long_break := 15
    pomo_cycles := 4
    pomo_current_cycle := 0
    pomo_in_break := false
    daily_goal := 120
    weekly_goal := 600
    clock := 0
    db := []
    nextId := 1 }

/-- `_start_session` (src/main.py:211-229).  Rejected with a bell (no state
change) when `self.remaining is not None`; otherwise arms the countdown,
capturing `start_ts = time.time()` (the model clock, which then advances). -/
def start_session (s : St) (minutes tagIn : String) : St :=
  if s.remaining.isSome then s
  else if s.pomodoro_mode then
    { s with duration := s.pomo_focus * 60
             remaining := some (s.pomo_focus * 60)
             tag := strip_or_none tagIn
             start_ts := s.clock
             clock := s.clock + 1
             tickTimerActive := true
             pomo_in_break := false }
  else if pyDigits minutes && decide (0 < digitsVal minutes.data) then
    { s with duration := (digitsVal minutes.data : Int) * 60
             remaining := some ((digitsVal minutes.data : Int) * 60)
             tag := strip_or_none tagIn
             start_ts := s.clock
             clock := s.clock + 1
             tickTimerActive := true }
  else s

/-- `_pomo_next` (src/main.py:432-453): after a focus interval, increment the
cycle counter and arm a long break when `pomo_current_cycle % pomo_cycles == 0`
(else a short break); after a break, reset the counter on the same condition
and arm the next focus interval. -/
def pomo_next (s : St) : St :=
  if !s.pomo_in_break then
    let c := s.pomo_current_cycle + 1
    let rem := if c % s.pomo_cycles = 0 then s.pomo_long_break * 60
               else s.pomo_short_break * 60
    { s with pomo_current_cycle := c
             remaining := some rem
             pomo_in_break := true
             tickTimerActive := true }
  else
    let c := if s.pomo_current_cycle % s.pomo_cycles = 0 then 0
             else s.pomo_current_cycle
    { s with pomo_current_cycle := c
             remaining := some (s.pomo_focus * 60)
             pomo_in_break := false
             tickTimerActive := true }

/-- `_prompt_note` (src/main.py:246-254): mount the note input unless one is
already mounted. -/
def prompt_note (s : St) : St :=
  if s.notePrompt then s else { s with notePrompt := true }

/-- `_prompt_break` (src/main.py:337-351): mount the break popup (offering a
`break_default`-minute break, start button enabled) unless one is already
mounted. -/
def prompt_break (s : St) : St :=
  if s.breakPopup then s
  else { s with breakRemaining := some (s.breakDefault * 60)
                breakPopup := true
                breakStartDisabled := false }

/-- `_tick` (src/main.py:231-244): decrement `remaining`; on reaching 0 stop
the interval timer, clear `remaining`, and either advance the Pomodoro cycle
or (manual mode) mount the note prompt and the break offer.  A tick is a
no-op when the timer handle is stopped (no callback is delivered). -/
def tick (s : St) : St :=
  if !s.tickTimerActive then s
  else
    match s.remaining with
    | none => s
    | some r =>
        let r' := r - 1
        if r' ≤ 0 then
          let s' := { s with remaining := none, tickTimerActive := false }
          if s.pomodoro_mode then pomo_next s'
          else prompt_break (prompt_note s')
        else { s with remaining := some r' }

/-- `_save_note` (src/main.py:256-265): insert one row with the captured
`start_ts`, `duration // 60`, `tag` and the stripped note, then remove the
prompt.  Only reachable while the note prompt is mounted (its `Input` widget
is the event source). -/
def save_note (s : St) (note : String) : St :=
  if s.notePrompt then
    { s with db := s.db ++ [{ id := s.nextId
                              start_ts := s.start_ts
                              duration_min := s.duration / 60
                              tag := s.tag
                              note := pyStrip note }]
             nextId := s.nextId + 1
             notePrompt := false }
  else s

/-- `_pause_resume` (src/main.py:267-277): bell (no-op) unless `remaining`
is set; otherwise stop the interval timer (pause) or restart it (resume). -/
def pause_resume (s : St) : St :=
  if s.remaining.isNone then s
  else if s.paused then { s with tickTimerActive := true, paused := false }
  else { s with tickTimerActive := false, paused := true }

/-- `_start_break` (src/main.py:357-370): parse the break-minutes input
(falling back to `break_default * 60` on a parse error, and keeping the
prompted value on a non-positive parse), disable the input and start button,
and start the break interval timer.  Only reachable while the break popup is
mounted with its start button enabled. -/
def start_break (s : St) (input : String) : St :=
  if s.breakPopup && !s.breakStartDisabled then
    let s1 :=
      match pyInt input with
      | some n => if 0 < n then { s with breakRemaining := some (n * 60), breakDefault := n }
                  else s
      | none => { s with breakRemaining := some (s.breakDefault * 60) }
    { s1 with breakStartDisabled := true, breakTimerActive := true }
  else s

/-- `_break_tick` (src/main.py:376-386): decrement `break_remaining`; on
reaching 0 stop the break timer and remove the popup.  No-op when the break
timer handle is stopped. -/
def break_tick (s : St) : St :=
  if !s.breakTimerActive then s
  else
    match s.breakRemaining with
    | none => s
    | some r =>
        let r' := r - 1
        if r' ≤ 0 then
          { s with breakRemaining := some r'
                   breakTimerActive := false
                   breakPopup := false }
        else { s with breakRemaining := some r' }

/-- The `break_skip` button handler (src/main.py:178-185): stop the break
timer if one is running and remove the popup.  Only reachable while the
popup is mounted. -/
def break_skip (s : St) : St :=
  if s.breakPopup then { s with breakTimerActive := false, breakPopup := false }
  else s

/-- The `pomo_toggle` button handler (src/main.py:186-188):
`self.pomodoro_mode = not self.pomodoro_mode`, unconditionally. -/
def pomo_toggle (s : St) : St :=
  { s with pomodoro_mode := !s.pomodoro_mode }

/-- The user-visible events of the timer core.  String arguments carry the
contents of the input widgets the handler reads. -/
inductive Ev where
  | pressStart (minutes tagIn : String)
  | tick
  | pressPause
  | submitNote (note : String)
  | pressBreakStart (input : String)
  | breakTick
  | pressBreakSkip
  | pressPomoToggle
deriving DecidableEq

/-- One step of the event loop: dispatch an event to its handler
(`on_button_pressed` / `on_input_submitted` / the interval callbacks). -/
def step (s : St) (e : Ev) : St :=
  match e with
  | .pressStart m t => start_session s m t
  | .tick => tick s
  | .pressPause => pause_resume s
  | .submitNote n => save_note s n
  | .pressBreakStart v => start_break s v
  | .breakTick => break_tick s
  | .pressBreakSkip => break_skip s
  | .pressPomoToggle => pomo_toggle s

/-- Run a sequence of events from a state. -/
def run (s : St) (es : List Ev) : St :=
  es.foldl step s

/-- The observable countdown value (spec's `remaining_seconds`): the timer
display renders `max(self.remaining, 0)` (src/main.py:233), and an unarmed
countdown (`remaining is None`) displays no remaining seconds, i.e. 0. -/
def remaining_seconds (s : St) : Int :=
  match s.remaining with
  | none => 0
  | some r => max r 0

/-! ## Stats aggregation, settings and the session editor (pure functions) -/

/-- `max(data.values()) if data else 1` (src/main.py:140): maximum of the
per-day totals that have at least one session, with the guard value 1 for an
empty window. -/
def listMaxD (l : List Int) : Int :=
  match l with
  | [] => 1
  | v :: vs => vs.foldl max v

/-- `data.get(day, 0)` (src/main.py:146): the heatmap query result `data` is
modelled as an association list from day index (0..29 within the window) to
`SUM(duration_min)`; a day with no sessions is absent and totals 0. -/
def dayTotal (data : List (Nat × Int)) (d : Nat) : Int :=
  (data.lookup d).getD 0

/-- `int((mins / max_min) * 4) if max_min else 0` (src/main.py:147), in exact
integer arithmetic: for the nonnegative totals the query produces,
`int((mins / max_min) * 4)` is `floor(mins * 4 / max_min)`, i.e. `Int` division. -/
def heatLevel (data : List (Nat × Int)) (d : Nat) : Int :=
  let mx := listMaxD (data.map Prod.snd)
  if mx ≠ 0 then dayTotal data d * 4 / mx else 0

/-- The spec's words for the heatmap denominator: "`max_day_total` is the
maximum across the window" — the maximum of all 30 daily totals (days without
sessions contributing 0).  Stated separately from `listMaxD` (which follows
the source) so the two can be compared. -/
def specWindowMax (data : List (Nat × Int)) : Int :=
  ((List.range 30).map fun d => dayTotal data d).foldl max 0

/-- The goal progress fraction (src/main.py:122-123):
`min(total / goal, 1.0) if goal else 0` — note the guard is Python
truthiness of the goal, i.e. `goal != 0`, not `goal > 0`.  Real-number
division is modelled exactly over `ℚ`. -/
def goalProgress (total goal : ℚ) : ℚ :=
  if goal ≠ 0 then min (total / goal) 1 else 0

/-- `_save_goal_settings` (src/main.py:325-335): parse both inputs (an
exception anywhere leaves the state untouched), then assign both goals only
when both parsed values are positive. -/
def save_goal_settings (s : St) (d w : String) : St :=
  match pyInt d, pyInt w with
  | some daily, some weekly =>
      if 0 < daily ∧ 0 < weekly then
        { s with daily_goal := daily, weekly_goal := weekly }
      else s
  | _, _ => s

/-- `_save_pomo_settings` (src/main.py:416-430): parse all four inputs (an
exception anywhere leaves the state untouched), then assign all four fields
only when all parsed values are positive. -/
def save_pomo_settings (s : St) (f sh lo cy : String) : St :=
  match pyInt f, pyInt sh, pyInt lo, pyInt cy with
  | some focus, some shortb, some longb, some cycles =>
      if 0 < focus ∧ 0 < shortb ∧ 0 < longb ∧ 0 < cycles then
        { s with pomo_focus := focus
                 pomo_short_break := shortb
                 pomo_long_break := longb
                 pomo_cycles := cycles }
      else s
  | _, _, _, _ => s

/-- `_save_edit_session` (src/main.py:301-310):
`UPDATE sessions SET tag=?, note=? WHERE id=?` with the stripped tag and
note of the edit popup. -/
def save_edit_session (db : List Row) (sid : Int) (tagIn noteIn : String) : List Row :=
  db.map fun r =>
    if r.id = sid then { r with tag := some (pyStrip tagIn), note := pyStrip noteIn }
    else r

/-! ## Concrete traces used by the counterexamples and scenarios -/

/-- Arm a 1-minute session, let it expire (note prompt + break offer mount),
arm a second 1-minute session while the first note prompt is still open,
submit the open prompt, let the second session expire, and submit again. -/
def C1trace : List Ev :=
  [.pressStart "1" ""] ++ List.replicate 60 .tick ++
  [.pressStart "1" "", .submitNote "x"] ++ List.replicate 60 .tick ++
  [.submitNote "y"]

/-- Arm a 1-minute session, let it expire, start the offered break, then arm
a new 2-minute session while the break is ticking. -/
def C2trace : List Ev :=
  [.pressStart "1" ""] ++ List.replicate 60 .tick ++
  [.pressBreakStart "5", .pressStart "2" ""]

/-- Arm a 1-minute session and let it expire: the machine is awaiting the
note (phase `AwaitingNote`). -/
def C6trace : List Ev :=
  [.pressStart "1" ""] ++ List.replicate 60 .tick

/-- Pomodoro scenario base state: Pomodoro mode on with `cycles_per_long_break
= 4`, a 1-minute focus interval, a 1-minute short break and a 2-minute long
break (so an armed break of 60 seconds is short and one of 120 seconds is
long). -/
def pomoInit : St :=
  { init with pomodoro_mode := true
              pomo_focus := 1
              pomo_short_break := 1
              pomo_long_break := 2
              pomo_cycles := 4 }

/-- One minute of ticks. -/
def pomoSeg : List Ev := List.replicate 60 .tick

/-- After arming and completing the 1st focus interval: its break is armed. -/
def pomoP1 : St := run pomoInit (Ev.pressStart "" "" :: pomoSeg)

/-- After the 1st break: the 2nd focus interval is armed. -/
def pomoP2 : St := run pomoP1 pomoSeg

/-- After the 2nd focus interval: its break is armed. -/
def pomoP3 : St := run pomoP2 pomoSeg

/-- After the 2nd break. -/
def pomoP4 : St := run pomoP3 pomoSeg

/-- After the 3rd focus interval: its break is armed. -/
def pomoP5 : St := run pomoP4 pomoSeg

/-- After the 3rd break. -/
def pomoP6 : St := run pomoP5 pomoSeg

/-- After the 4th focus interval: its break is armed. -/
def pomoP7 : St := run pomoP6 pomoSeg

/-- After the 4th (long, 120-second) break completes. -/
def pomoP8 : St := run pomoP7 (List.replicate 120 .tick)

set_option maxRecDepth 4000

/-! ## Helper lemmas -/

theorem le_foldl_max (l : List Int) (a : Int) : a ≤ l.foldl max a := by
  induction l generalizing a with
  | nil => simp
  | cons x xs ih => exact le_trans (le_max_left a x) (ih (max a x))

theorem mem_le_foldl_max : ∀ (l : List Int) (a x : Int), x ∈ l → x ≤ l.foldl max a := by
  intro l
  induction l with
  | nil => intro a x hx; cases hx
  | cons y ys ih =>
    intro a x hx
    rw [List.foldl_cons]
    rcases List.mem_cons.mp hx with h | h
    · subst h; exact le_trans (le_max_right a x) (le_foldl_max ys (max a x))
    · exact ih (max a y) x h

theorem foldl_max_le : ∀ (l : List Int) (a b : Int), a ≤ b → (∀ x ∈ l, x ≤ b) →
    l.foldl max a ≤ b := by
  intro l
  induction l with
  | nil => intro a b ha _; simpa using ha
  | cons y ys ih =>
    intro a b ha hl
    rw [List.foldl_cons]
    exact ih (max a y) b (max_le ha (hl y (List.mem_cons_self y ys)))
      fun x hx => hl x (List.mem_cons_of_mem y hx)

theorem foldl_max_mem : ∀ (l : List Int) (a : Int), l.foldl max a = a ∨ l.foldl max a ∈ l := by
  intro l
  induction l with
  | nil => intro a; left; rfl
  | cons y ys ih =>
    intro a
    rw [List.foldl_cons]
    rcases ih (max a y) with h | h
    · rcases max_choice a y with h1 | h1
      · left; rw [h, h1]
      · right; rw [h, h1]; exact List.mem_cons_self y ys
    · right; exact List.mem_cons_of_mem y h

theorem mem_le_listMaxD {l : List Int} {x : Int} (hx : x ∈ l) : x ≤ listMaxD l := by
  cases l with
  | nil => cases hx
  | cons v vs =>
    show x ≤ vs.foldl max v
    rcases List.mem_cons.mp hx with h | h
    · subst h; exact le_foldl_max vs x
    · exact mem_le_foldl_max vs v x h

theorem listMaxD_mem (l : List Int) (h : l ≠ []) : listMaxD l ∈ l := by
  cases l with
  | nil => exact absurd rfl h
  | cons v vs =>
    show vs.foldl max v ∈ v :: vs
    rcases foldl_max_mem vs v with h1 | h1
    · rw [h1]; exact List.mem_cons_self v vs
    · exact List.mem_cons_of_mem v h1

theorem lookup_mem : ∀ {data : List (Nat × Int)} {d : Nat} {v : Int},
    data.lookup d = some v → (d, v) ∈ data := by
  intro data
  induction data with
  | nil => intro d v h; simp [List.lookup] at h
  | cons p ps ih =>
    intro d v h
    obtain ⟨k, w⟩ := p
    by_cases hk : d = k
    · subst hk
      have hb : (d == d) = true := by simp
      simp [List.lookup, hb] at h
      subst h
      exact List.mem_cons_self _ _
    · have hb : (d == k) = false := beq_eq_false_iff_ne.mpr hk
      simp [List.lookup, hb] at h
      exact List.mem_cons_of_mem _ (ih h)

theorem lookup_of_nodup : ∀ {data : List (Nat × Int)}, (data.map Prod.fst).Nodup →
    ∀ {d : Nat} {v : Int}, (d, v) ∈ data → data.lookup d = some v := by
  intro data
  induction data with
  | nil => intro _ d v h; cases h
  | cons p ps ih =>
    intro hnd d v h
    obtain ⟨k, w⟩ := p
    rw [List.map_cons, List.nodup_cons] at hnd
    rcases List.mem_cons.mp h with h1 | h1
    · injection h1 with h2 h3
      subst h2
      subst h3
      simp [List.lookup]
    · have hdk : d ≠ k := by
        intro he
        subst he
        exact hnd.1 (List.mem_map.mpr ⟨(d, v), h1, rfl⟩)
      have hb : (d == k) = false := beq_eq_false_iff_ne.mpr hdk
      simp only [List.lookup, hb]
      exact ih hnd.2 h1

theorem listMaxD_eq_specWindowMax (data : List (Nat × Int)) (hne : data ≠ [])
    (hk : ∀ p ∈ data, p.1 < 30) (hv : ∀ p ∈ data, 0 ≤ p.2)
    (hnd : (data.map Prod.fst).Nodup) :
    listMaxD (data.map Prod.snd) = specWindowMax data := by
  have hvals : data.map Prod.snd ≠ [] := by
    intro hcontra
    exact hne (List.map_eq_nil_iff.mp hcontra)
  have h0 : 0 ≤ listMaxD (data.map Prod.snd) := by
    obtain ⟨p, hp, hpe⟩ := List.mem_map.mp (listMaxD_mem _ hvals)
    rw [← hpe]
    exact hv p hp
  apply le_antisymm
  · obtain ⟨p, hp, hpe⟩ := List.mem_map.mp (listMaxD_mem _ hvals)
    have hd : dayTotal data p.1 = p.2 := by
      unfold dayTotal
      rw [lookup_of_nodup hnd (show (p.1, p.2) ∈ data by simpa using hp)]
      rfl
    have hmem : dayTotal data p.1 ∈ (List.range 30).map fun d => dayTotal data d :=
      List.mem_map.mpr ⟨p.1, List.mem_range.mpr (hk p hp), rfl⟩
    rw [← hpe, ← hd]
    exact mem_le_foldl_max _ 0 _ hmem
  · apply foldl_max_le _ 0 _ h0
    intro x hx
    obtain ⟨d, _, hde⟩ := List.mem_map.mp hx
    rw [← hde]
    unfold dayTotal
    cases hlu : data.lookup d with
    | none => simpa using h0
    | some w =>
      have hw : w ∈ data.map Prod.snd := List.mem_map.mpr ⟨(d, w), lookup_mem hlu, rfl⟩
      simpa using mem_le_listMaxD hw

/-! ## Claims C7-C10 -/

/-- C7: each day's heatmap level equals `floor((day_total / max_day_total) * 4)`
with `max_day_total` the window maximum; a day with zero sessions gets level 0;
a window with no sessions yields all-zero levels with no division-by-zero
fault (the source guards with `max(...) if data else 1` and `if max_min`);
and a window whose only nonzero day has 120 minutes gives that day level 4
and all others level 0. -/
theorem C7_heatmap_levels :
    (∀ d, heatLevel [] d = 0)
  ∧ (∀ (data : List (Nat × Int)) (d : Nat), data.lookup d = none → heatLevel data d = 0)
  ∧ (∀ (data : List (Nat × Int)) (d : Nat), data ≠ [] →
       (∀ p ∈ data, p.1 < 30) → (∀ p ∈ data, 0 ≤ p.2) → (data.map Prod.fst).Nodup →
       heatLevel data d = dayTotal data d * 4 / specWindowMax data)
  ∧ heatLevel [(5, 120)] 5 = 4
  ∧ (∀ d, d ≠ 5 → heatLevel [(5, 120)] d = 0) := by
  refine ⟨?_, ?_, ?_, by decide, ?_⟩
  · intro d
    simp [heatLevel, dayTotal, listMaxD, List.lookup]
  · intro data d h
    unfold heatLevel dayTotal
    rw [h]
    simp
  · intro data d hne hk hv hnd
    unfold heatLevel
    rw [listMaxD_eq_specWindowMax data hne hk hv hnd]
    dsimp only
    split_ifs with h
    · rfl
    · rw [not_not.mp h, Int.ediv_zero]
  · intro d hd
    have hb : (d == 5) = false := beq_eq_false_iff_ne.mpr hd
    unfold heatLevel dayTotal
    simp [List.lookup, hb, listMaxD]

/-- C7 witness: the theorem's conditional parts instantiated on a concrete
two-day window. -/
theorem C7_heatmap_levels_witness :
    heatLevel [(0, 10), (2, 30)] 1 = 0
  ∧ heatLevel [(0, 10), (2, 30)] 0 =
      dayTotal [(0, 10), (2, 30)] 0 * 4 / specWindowMax [(0, 10), (2, 30)] := by
  constructor
  · exact C7_heatmap_levels.2.1 [(0, 10), (2, 30)] 1 (by decide)
  · exact C7_heatmap_levels.2.2.1 [(0, 10), (2, 30)] 0 (by decide) (by decide) (by decide)
      (by decide)

/-- C8 counterexample: the claim says `GoalProgress(total, goal) = 0` for every
`goal <= 0`, but the source guard (src/main.py:122) is Python truthiness
(`if self.daily_goal`), which only catches `goal == 0`: for `total = 5`,
`goal = -1` the code computes `min(5 / -1, 1.0) = -5`, not 0. -/
theorem C8_counterexample :
    (0 : ℚ) ≤ 5 ∧ (-1 : ℚ) ≤ 0 ∧ goalProgress 5 (-1) = -5 ∧ ((-5 : ℚ) ≠ 0) := by
  refine ⟨by norm_num, by norm_num, ?_, by norm_num⟩
  rw [goalProgress]
  norm_num

/-- C8 amended: `goalProgress total goal` equals `min(total/goal, 1)` for every
nonzero goal (negative goals included, where the result can be negative), and
equals 0 exactly when `goal = 0`. -/
theorem C8_amended (total goal : ℚ) :
    (goal ≠ 0 → goalProgress total goal = min (total / goal) 1)
  ∧ goalProgress total 0 = 0 := by
  constructor
  · intro h
    rw [goalProgress, if_pos h]
  · rw [goalProgress]
    norm_num

/-- C8 witness: the amended theorem instantiated at `total = 30`, `goal = 120`. -/
theorem C8_amended_witness :
    goalProgress 30 120 = min ((30 : ℚ) / 120) 1 ∧ goalProgress 30 0 = 0 :=
  ⟨(C8_amended 30 120).1 (by norm_num), (C8_amended 30 0).2⟩

/-- C9: saving the goal or Pomodoro settings is atomic with respect to parse
failures and validation: if any field fails to parse as an integer or any
parsed value is non-positive, the whole state (in particular every stored
configuration value) is left unchanged. -/
theorem C9_settings_atomic :
    (∀ (s : St) (d w : String),
       (∀ daily weekly : Int, pyInt d = some daily → pyInt w = some weekly →
          ¬(0 < daily ∧ 0 < weekly)) →
       save_goal_settings s d w = s)
  ∧ (∀ (s : St) (f sh lo cy : String),
       (∀ a b c e : Int, pyInt f = some a → pyInt sh = some b → pyInt lo = some c →
          pyInt cy = some e → ¬(0 < a ∧ 0 < b ∧ 0 < c ∧ 0 < e)) →
       save_pomo_settings s f sh lo cy = s) := by
  constructor
  · intro s d w h
    unfold save_goal_settings
    rcases hd : pyInt d with _ | daily <;> rcases hw : pyInt w with _ | weekly <;> simp
    intro h1 h2
    exact absurd ⟨h1, h2⟩ (h daily weekly hd hw)
  · intro s f sh lo cy h
    unfold save_pomo_settings
    rcases hf : pyInt f with _ | a <;> rcases hsh : pyInt sh with _ | b <;>
      rcases hlo : pyInt lo with _ | c <;> rcases hcy : pyInt cy with _ | e <;> simp
    intro h1 h2 h3 h4
    exact absurd ⟨h1, h2, h3, h4⟩ (h a b c e hf hsh hlo hcy)

/-- C9 witness: a non-numeric daily goal and a non-numeric Pomodoro focus
value each leave the state untouched. -/
theorem C9_settings_atomic_witness :
    save_goal_settings init "abc" "10" = init
  ∧ save_pomo_settings init "x" "1" "1" "1" = init := by
  constructor
  · exact C9_settings_atomic.1 init "abc" "10" fun daily weekly h1 _ => by
      rw [show pyInt "abc" = none from by decide] at h1
      cases h1
  · exact C9_settings_atomic.2 init "x" "1" "1" "1" fun a b c e h1 _ _ _ => by
      rw [show pyInt "x" = none from by decide] at h1
      cases h1

/-- C10: the edit-save operation writes only the stripped tag and note of the
rows whose id matches the selected one; id, start_ts and duration_min of the
edited row are unchanged, and every row with a different id is unchanged
entirely (positions and length are also preserved, `UPDATE ... WHERE id=?`). -/
theorem C10_edit_frame :
    ∀ (db : List Row) (sid : Int) (t n : String) (i : Nat) (r' : Row),
      (save_edit_session db sid t n).get? i = some r' →
      ∃ r, db.get? i = some r ∧ r'.id = r.id ∧ r'.start_ts = r.start_ts ∧
        r'.duration_min = r.duration_min ∧
        (r.id ≠ sid → r' = r) ∧
        (r.id = sid → r' = { r with tag := some (pyStrip t), note := pyStrip n }) := by
  intro db sid t n i r' h
  unfold save_edit_session at h
  rw [List.get?_map] at h
  cases hg : db.get? i with
  | none => rw [hg] at h; cases h
  | some r =>
    rw [hg] at h
    simp only [Option.map_some', Option.some.injEq] at h
    refine ⟨r, rfl, ?_⟩
    by_cases hid : r.id = sid
    · rw [if_pos hid] at h
      subst h
      exact ⟨rfl, rfl, rfl, fun hne => absurd hid hne, fun _ => rfl⟩
    · rw [if_neg hid] at h
      subst h
      exact ⟨rfl, rfl, rfl, fun _ => rfl, fun he => absurd he hid⟩

/-- C10 witness: editing the row with id 1 in a two-row store. -/
theorem C10_edit_frame_witness :
    ∃ r, [⟨1, 10, 25, some "a", "n"⟩, ⟨2, 20, 30, none, "m"⟩].get? 0 = some r ∧
      (⟨1, 10, 25, some "t", "note"⟩ : Row).id = r.id ∧
      (⟨1, 10, 25, some "t", "note"⟩ : Row).start_ts = r.start_ts ∧
      (⟨1, 10, 25, some "t", "note"⟩ : Row).duration_min = r.duration_min ∧
      (r.id ≠ 1 → (⟨1, 10, 25, some "t", "note"⟩ : Row) = r) ∧
      (r.id = 1 → (⟨1, 10, 25, some "t", "note"⟩ : Row) =
        { r with tag := some (pyStrip " t "), note := pyStrip " note " }) :=
  C10_edit_frame [⟨1, 10, 25, some "a", "n"⟩, ⟨2, 20, 30, none, "m"⟩] 1 " t " " note " 0
    ⟨1, 10, 25, some "t", "note"⟩ (by decide)

theorem start_session_db (s : St) (m t : String) : (start_session s m t).db = s.db := by
  unfold start_session
  split_ifs <;> rfl

theorem pomo_next_db (s : St) : (pomo_next s).db = s.db := by
  unfold pomo_next
  split_ifs <;> rfl

theorem prompt_note_db (s : St) : (prompt_note s).db = s.db := by
  unfold prompt_note
  split_ifs <;> rfl

theorem prompt_break_db (s : St) : (prompt_break s).db = s.db := by
  unfold prompt_break
  split_ifs <;> rfl

theorem tick_db (s : St) : (tick s).db = s.db := by
  unfold tick
  by_cases h : (!s.tickTimerActive) = true
  · rw [if_pos h]
  · rw [if_neg h]
    cases s.remaining with
    | none => rfl
    | some r =>
      dsimp only
      by_cases h2 : r - 1 ≤ 0
      · rw [if_pos h2]
        by_cases h3 : s.pomodoro_mode = true
        · rw [if_pos h3, pomo_next_db]
        · rw [if_neg h3, prompt_break_db, prompt_note_db]
      · rw [if_neg h2]

theorem pause_resume_db (s : St) : (pause_resume s).db = s.db := by
  unfold pause_resume
  split_ifs <;> rfl

theorem start_break_db (s : St) (v : String) : (start_break s v).db = s.db := by
  unfold start_break
  split_ifs with h
  · cases pyInt v with
    | none => rfl
    | some n =>
      dsimp only
      split_ifs <;> rfl
  · rfl

theorem break_tick_db (s : St) : (break_tick s).db = s.db := by
  unfold break_tick
  split_ifs with h
  · rfl
  · cases s.breakRemaining with
    | none => rfl
    | some r =>
      dsimp only
      split_ifs <;> rfl

theorem break_skip_db (s : St) : (break_skip s).db = s.db := by
  unfold break_skip
  split_ifs <;> rfl

/-! ## Claims C1, C2, C4, C6 -/

/-- C1 counterexample: the claim's "at most once per armed focus interval"
fails.  In `C1trace`, the second armed interval (captured `start_ts = 1`)
produces two store records: arming is permitted while the previous note
prompt is still open (`_start_session` only checks `remaining`), so the open
prompt's save inserts a row built from the *new* interval's captured data,
and the new interval's own expiry prompts and saves again. -/
theorem C1_counterexample :
    ¬ (∀ (es : List Ev) (ts : Int),
        ((run init es).db.filter fun r => r.start_ts = ts).length ≤ 1) := by
  intro h
  exact absurd (h C1trace 1) (by decide)

/-- C1 amended: a session record is written to the store only by the
note-save handler (never by `Arm`, `Tick` or break expiry, which leave the
store unchanged), each save inserts exactly one row (built from the
currently captured `start_ts`/`duration`/`tag`) and closes the prompt; but
one armed interval can be recorded twice when a new session is armed while
an earlier note prompt is still open. -/
theorem C1_amended (s : St) (e : Ev) :
    (step s e).db = s.db ∨
    ∃ n, e = Ev.submitNote n ∧ s.notePrompt = true ∧
      (step s e).db = s.db ++ [⟨s.nextId, s.start_ts, s.duration / 60, s.tag, pyStrip n⟩] ∧
      (step s e).notePrompt = false := by
  cases e with
  | submitNote n =>
    by_cases h : s.notePrompt = true
    · right
      refine ⟨n, rfl, h, ?_, ?_⟩
      · show (save_note s n).db = _
        unfold save_note
        rw [if_pos h]
      · show (save_note s n).notePrompt = false
        unfold save_note
        rw [if_pos h]
    · left
      show (save_note s n).db = s.db
      unfold save_note
      rw [if_neg h]
  | pressStart m t => exact Or.inl (start_session_db s m t)
  | tick => exact Or.inl (tick_db s)
  | pressPause => exact Or.inl (pause_resume_db s)
  | pressBreakStart v => exact Or.inl (start_break_db s v)
  | breakTick => exact Or.inl (break_tick_db s)
  | pressBreakSkip => exact Or.inl (break_skip_db s)
  | pressPomoToggle => exact Or.inl rfl

/-- C2 counterexample: the claim's "two countdowns never run concurrently"
fails: in `C2trace` a manual break countdown is started from the offer popup
and then `Arm` succeeds (it only checks `remaining`, which a manual break
does not use), leaving both the focus and the break interval timers
running. -/
theorem C2_counterexample :
    ¬ (∀ es : List Ev,
        ¬((run init es).tickTimerActive = true ∧ (run init es).breakTimerActive = true)) := by
  intro h
  exact h C2trace (by decide)

/-- C2 amended: `Arm` is rejected exactly while the focus-slot countdown
(`remaining`) is armed — which covers `Running`, `Paused` and Pomodoro
breaks — but arming a manual break is never phase-checked, so a focus
countdown and a manual break countdown can tick concurrently. -/
theorem C2_amended :
    (∀ (s : St) (m t : String), s.remaining.isSome = true →
       (step s (Ev.pressStart m t)).remaining = s.remaining ∧
       (step s (Ev.pressStart m t)).tickTimerActive = s.tickTimerActive ∧
       (step s (Ev.pressStart m t)).breakTimerActive = s.breakTimerActive)
  ∧ (∀ (s : St) (v : String), s.breakPopup = true → s.breakStartDisabled = false →
       (step s (Ev.pressBreakStart v)).breakTimerActive = true) := by
  constructor
  · intro s m t h
    have key : step s (Ev.pressStart m t) = s := by
      show start_session s m t = s
      unfold start_session
      rw [if_pos h]
    rw [key]
    exact ⟨rfl, rfl, rfl⟩
  · intro s v h1 h2
    show (start_break s v).breakTimerActive = true
    have hc : (s.breakPopup && !s.breakStartDisabled) = true := by rw [h1, h2]; rfl
    unfold start_break
    rw [hc, if_pos rfl]

/-- C2 witness: the amended theorem instantiated at a state with an armed
countdown (arm rejected) and at a state showing the break offer (break
armed unconditionally). -/
theorem C2_amended_witness :
    ((step { init with remaining := some 5 } (Ev.pressStart "3" "")).remaining =
        ({ init with remaining := some 5 } : St).remaining
  ∧ (step { init with remaining := some 5 } (Ev.pressStart "3" "")).tickTimerActive =
        ({ init with remaining := some 5 } : St).tickTimerActive
  ∧ (step { init with remaining := some 5 } (Ev.pressStart "3" "")).breakTimerActive =
        ({ init with remaining := some 5 } : St).breakTimerActive)
  ∧ (step { init with breakPopup := true } (Ev.pressBreakStart "7")).breakTimerActive = true :=
  ⟨C2_amended.1 { init with remaining := some 5 } "3" "" rfl,
   C2_amended.2 { init with breakPopup := true } "7" rfl rfl⟩

/-- C4 counterexample: the claim says toggling Pomodoro mode while a session
is `Running` is rejected and leaves the mode flag unchanged, but the
`pomo_toggle` handler flips the flag unconditionally: after arming a
1-minute session (`remaining = some 60`, i.e. `Running`), pressing the
toggle changes `pomodoro_mode` from `false` to `true`. -/
theorem C4_counterexample :
    init.pomodoro_mode = false
  ∧ (run init [Ev.pressStart "1" ""]).remaining = some 60
  ∧ (run init [Ev.pressStart "1" ""]).pomodoro_mode = false
  ∧ (run init [Ev.pressStart "1" "", Ev.pressPomoToggle]).remaining = some 60
  ∧ (run init [Ev.pressStart "1" "", Ev.pressPomoToggle]).pomodoro_mode = true := by
  decide

/-- C4 amended: toggling Pomodoro mode is accepted in every phase and always
flips the flag (no `SessionActive` rejection exists; the toggle leaves the
timer state untouched); toggling on while `Idle` is reflected in the next
`Arm`, whose duration is forced to `pomo_focus * 60`. -/
theorem C4_amended :
    (∀ s : St, (step s Ev.pressPomoToggle).pomodoro_mode = !s.pomodoro_mode ∧
       (step s Ev.pressPomoToggle).remaining = s.remaining ∧
       (step s Ev.pressPomoToggle).db = s.db)
  ∧ (∀ (s : St) (m t : String), s.remaining = none → s.pomodoro_mode = true →
       (step s (Ev.pressStart m t)).remaining = some (s.pomo_focus * 60) ∧
       (step s (Ev.pressStart m t)).duration = s.pomo_focus * 60) := by
  constructor
  · intro s
    exact ⟨rfl, rfl, rfl⟩
  · intro s m t h1 h2
    have hc : ¬(s.remaining.isSome = true) := by rw [h1]; simp
    have key : start_session s m t =
        { s with duration := s.pomo_focus * 60
                 remaining := some (s.pomo_focus * 60)
                 tag := strip_or_none t
                 start_ts := s.clock
                 clock := s.clock + 1
                 tickTimerActive := true
                 pomo_in_break := false } := by
      unfold start_session
      rw [if_neg hc, if_pos h2]
    exact ⟨by show (start_session s m t).remaining = _; rw [key],
           by show (start_session s m t).duration = _; rw [key]⟩

/-- C4 witness: the amended theorem instantiated at `init` (toggle) and at an
idle Pomodoro-mode state (arm forced to `pomo_focus * 60 = 1500`). -/
theorem C4_amended_witness :
    ((step init Ev.pressPomoToggle).pomodoro_mode = !init.pomodoro_mode
  ∧ (step init Ev.pressPomoToggle).remaining = init.remaining
  ∧ (step init Ev.pressPomoToggle).db = init.db)
  ∧ ((step { init with pomodoro_mode := true } (Ev.pressStart "" "")).remaining =
       some (({ init with pomodoro_mode := true } : St).pomo_focus * 60)
  ∧ (step { init with pomodoro_mode := true } (Ev.pressStart "" "")).duration =
       ({ init with pomodoro_mode := true } : St).pomo_focus * 60) :=
  ⟨C4_amended.1 init,
   C4_amended.2 { init with pomodoro_mode := true } "" "" rfl rfl⟩

/-- C6 counterexample: after a session expires the machine is awaiting the
note (`AwaitingNote`, phase ≠ `Idle`), yet `Arm` is accepted there and
mutates the timer state: `remaining` goes from `none` to `some 120` and
`start_ts` changes from 0 to 1 — no `AlreadyRunning` rejection. -/
theorem C6_counterexample :
    (run init C6trace).notePrompt = true
  ∧ (run init C6trace).remaining = none
  ∧ (run init C6trace).start_ts = 0
  ∧ (run init (C6trace ++ [Ev.pressStart "2" ""])).remaining = some 120
  ∧ (run init (C6trace ++ [Ev.pressStart "2" ""])).start_ts = 1 := by
  decide

/-- C6 amended: `Arm` is a complete no-op (bell only) exactly when the
focus-slot countdown is armed (`remaining` is not `None`), which covers
`Running`, `Paused` and Pomodoro breaks; in `AwaitingNote`, a manual break,
or the break-decision popup `remaining` is `None` and `Arm` is accepted. -/
theorem C6_amended (s : St) (m t : String) (h : s.remaining.isSome = true) :
    step s (Ev.pressStart m t) = s := by
  show start_session s m t = s
  unfold start_session
  rw [if_pos h]

/-- C6 witness: an armed state rejects `Arm` without any mutation. -/
theorem C6_amended_witness :
    step { init with remaining := some 30 } (Ev.pressStart "9" "x") =
      { init with remaining := some 30 } :=
  C6_amended { init with remaining := some 30 } "9" "x" rfl

/-- Running `k+1` ticks on an armed countdown holding `k+1` seconds makes it
expire exactly on the last tick: the result is `_tick`'s expiry action
applied to the stopped state (Pomodoro advance, or note prompt plus break
offer). -/
theorem run_countdown : ∀ (k : Nat) (s : St), s.tickTimerActive = true →
    s.remaining = some ((k : Int) + 1) →
    run s (List.replicate (k + 1) Ev.tick) =
      (if s.pomodoro_mode = true then
        pomo_next { s with remaining := none, tickTimerActive := false }
      else
        prompt_break (prompt_note { s with remaining := none, tickTimerActive := false })) := by
  intro k
  induction k with
  | zero =>
    intro s h1 h3
    show tick s = _
    unfold tick
    have hb : (!s.tickTimerActive) = false := by rw [h1]; rfl
    rw [hb]
    rw [if_neg (by simp)]
    rw [h3]
    dsimp only
    rw [if_pos (by omega)]
  | succ k ih =>
    intro s h1 h3
    have hstep : tick s = { s with remaining := some ((k : Int) + 1) } := by
      unfold tick
      have hb : (!s.tickTimerActive) = false := by rw [h1]; rfl
      rw [hb]
      rw [if_neg (by simp)]
      rw [h3]
      dsimp only
      rw [if_neg (by push_cast; omega)]
      have h4 : ((k + 1 : Nat) : Int) + 1 - 1 = (k : Int) + 1 := by push_cast; ring
      rw [h4]
    have hcons : List.replicate (k + 1 + 1) Ev.tick = Ev.tick :: List.replicate (k + 1) Ev.tick :=
      List.replicate_succ _ _
    rw [hcons]
    show run (tick s) (List.replicate (k + 1) Ev.tick) = _
    rw [hstep]
    rw [ih { s with remaining := some ((k : Int) + 1) } h1 rfl]

/-- C3: for every duration `d > 0` entered in the minutes field, `Arm`
followed by exactly `d*60` ticks leaves the machine awaiting the note
(note prompt mounted, the phase the spec calls `AwaitingNote`), with the
observable countdown at 0, the ticking source stopped, and no persisted
record. -/
theorem C3_arm_then_full_ticks (m t : String) (h1 : pyDigits m = true)
    (h2 : 0 < digitsVal m.data) :
    (run init (Ev.pressStart m t :: List.replicate (digitsVal m.data * 60) Ev.tick)).notePrompt
        = true
  ∧ (run init (Ev.pressStart m t :: List.replicate (digitsVal m.data * 60) Ev.tick)).tickTimerActive
        = false
  ∧ remaining_seconds
        (run init (Ev.pressStart m t :: List.replicate (digitsVal m.data * 60) Ev.tick)) = 0
  ∧ (run init (Ev.pressStart m t :: List.replicate (digitsVal m.data * 60) Ev.tick)).db = [] := by
  have hc : (pyDigits m && decide (0 < digitsVal m.data)) = true := by
    rw [h1]
    simpa using h2
  have harm : start_session init m t =
      { init with duration := (digitsVal m.data : Int) * 60
                  remaining := some ((digitsVal m.data : Int) * 60)
                  tag := strip_or_none t
                  start_ts := init.clock
                  clock := init.clock + 1
                  tickTimerActive := true } := by
    unfold start_session
    rw [if_neg (by simp [init]), if_neg (by simp [init]), if_pos hc]
  have h60 : digitsVal m.data * 60 = (digitsVal m.data * 60 - 1) + 1 := by omega
  have hrem : ({ init with duration := (digitsVal m.data : Int) * 60
                           remaining := some ((digitsVal m.data : Int) * 60)
                           tag := strip_or_none t
                           start_ts := init.clock
                           clock := init.clock + 1
                           tickTimerActive := true } : St).remaining
      = some (((digitsVal m.data * 60 - 1 : Nat) : Int) + 1) := by
    show some ((digitsVal m.data : Int) * 60) = _
    congr 1
    omega
  have key : run init (Ev.pressStart m t :: List.replicate (digitsVal m.data * 60) Ev.tick)
      = prompt_break (prompt_note
          { init with duration := (digitsVal m.data : Int) * 60
                      remaining := none
                      tag := strip_or_none t
                      start_ts := init.clock
                      clock := init.clock + 1
                      tickTimerActive := false }) := by
    show run (start_session init m t) (List.replicate (digitsVal m.data * 60) Ev.tick) = _
    rw [harm, h60]
    rw [run_countdown (digitsVal m.data * 60 - 1) _ rfl hrem]
    rw [if_neg (by simp [init])]
  refine ⟨?_, ?_, ?_, ?_⟩ <;> rw [key] <;> rfl

/-- C3 witness: a 2-minute session armed from the string "2" and 120 ticks. -/
theorem C3_arm_then_full_ticks_witness :
    (run init (Ev.pressStart "2" "" :: List.replicate (digitsVal "2".data * 60) Ev.tick)).notePrompt
        = true
  ∧ (run init (Ev.pressStart "2" "" :: List.replicate (digitsVal "2".data * 60) Ev.tick)).tickTimerActive
        = false
  ∧ remaining_seconds
        (run init (Ev.pressStart "2" "" :: List.replicate (digitsVal "2".data * 60) Ev.tick)) = 0
  ∧ (run init (Ev.pressStart "2" "" :: List.replicate (digitsVal "2".data * 60) Ev.tick)).db = [] :=
  C3_arm_then_full_ticks "2" "" (by decide) (by decide)

/-- One step of `run` on a cons cell. -/
theorem run_cons (s : St) (e : Ev) (es : List Ev) : run s (e :: es) = run (step s e) es := rfl

/-- C5: `_pomo_next` policy — each focus completion increments
`pomo_current_cycle` and arms a long break exactly when the incremented
counter is divisible by `pomo_cycles` (else a short break); the counter
resets to 0 when a break completes with the counter divisible by
`pomo_cycles`.  Concretely (`pomoInit`: cycles = 4, short = 1 min = 60 s,
long = 2 min = 120 s), four consecutive focus completions arm breaks of
60, 60, 60, 120 seconds — `[short, short, short, long]` — and after the
long break completes the counter is back to 0. -/
theorem C5_pomodoro_policy :
    (∀ s : St, s.pomo_in_break = false →
       (pomo_next s).pomo_current_cycle = s.pomo_current_cycle + 1 ∧
       (pomo_next s).pomo_in_break = true ∧
       (pomo_next s).remaining =
         some (if (s.pomo_current_cycle + 1) % s.pomo_cycles = 0 then s.pomo_long_break * 60
               else s.pomo_short_break * 60))
  ∧ (∀ s : St, s.pomo_in_break = true →
       (pomo_next s).pomo_current_cycle =
         (if s.pomo_current_cycle % s.pomo_cycles = 0 then 0 else s.pomo_current_cycle) ∧
       (pomo_next s).pomo_in_break = false ∧
       (pomo_next s).remaining = some (s.pomo_focus * 60))
  ∧ (pomoP1.pomo_current_cycle = 1 ∧ pomoP1.remaining = some 60 ∧ pomoP1.pomo_in_break = true)
  ∧ (pomoP3.pomo_current_cycle = 2 ∧ pomoP3.remaining = some 60 ∧ pomoP3.pomo_in_break = true)
  ∧ (pomoP5.pomo_current_cycle = 3 ∧ pomoP5.remaining = some 60 ∧ pomoP5.pomo_in_break = true)
  ∧ (pomoP7.pomo_current_cycle = 4 ∧ pomoP7.remaining = some 120 ∧ pomoP7.pomo_in_break = true)
  ∧ (pomoP8.pomo_current_cycle = 0 ∧ pomoP8.remaining = some 60 ∧ pomoP8.pomo_in_break = false) := by
  have L1 : pomoP1 = { pomoInit with duration := 60, remaining := some 60, start_ts := 0, clock := 1, tickTimerActive := true, pomo_current_cycle := 1, pomo_in_break := true } := by
    show run pomoInit (Ev.pressStart "" "" :: pomoSeg) = _
    rw [show (Ev.pressStart "" "" :: pomoSeg : List Ev)
          = Ev.pressStart "" "" :: List.replicate (59 + 1) Ev.tick from rfl]
    rw [run_cons]
    rw [run_countdown 59 (step pomoInit (Ev.pressStart "" "")) (by decide) (by decide)]
    rw [if_pos (by decide)]
    decide
  have L2 : pomoP2 = { pomoInit with duration := 60, remaining := some 60, start_ts := 0, clock := 1, tickTimerActive := true, pomo_current_cycle := 1, pomo_in_break := false } := by
    show run pomoP1 pomoSeg = _
    rw [L1]
    rw [show pomoSeg = List.replicate (59 + 1) Ev.tick from rfl]
    rw [run_countdown 59 { pomoInit with duration := 60, remaining := some 60, start_ts := 0, clock := 1, tickTimerActive := true, pomo_current_cycle := 1, pomo_in_break := true } (by decide) (by decide)]
    rw [if_pos (by decide)]
    decide
  have L3 : pomoP3 = { pomoInit with duration := 60, remaining := some 60, start_ts := 0, clock := 1, tickTimerActive := true, pomo_current_cycle := 2, pomo_in_break := true } := by
    show run pomoP2 pomoSeg = _
    rw [L2]
    rw [show pomoSeg = List.replicate (59 + 1) Ev.tick from rfl]
    rw [run_countdown 59 { pomoInit with duration := 60, remaining := some 60, start_ts := 0, clock := 1, tickTimerActive := true, pomo_current_cycle := 1, pomo_in_break := false } (by decide) (by decide)]
    rw [if_pos (by decide)]
    decide
  have L4 : pomoP4 = { pomoInit with duration := 60, remaining := some 60, start_ts := 0, clock := 1, tickTimerActive := true, pomo_current_cycle := 2, pomo_in_break := false } := by
    show run pomoP3 pomoSeg = _
    rw [L3]
    rw [show pomoSeg = List.replicate (59 + 1) Ev.tick from rfl]
    rw [run_countdown 59 { pomoInit with duration := 60, remaining := some 60, start_ts := 0, clock := 1, tickTimerActive := true, pomo_current_cycle := 2, pomo_in_break := true } (by decide) (by decide)]
    rw [if_pos (by decide)]
    decide
  have L5 : pomoP5 = { pomoInit with duration := 60, remaining := some 60, start_ts := 0, clock := 1, tickTimerActive := true, pomo_current_cycle := 3, pomo_in_break := true } := by
    show run pomoP4 pomoSeg = _
    rw [L4]
    rw [show pomoSeg = List.replicate (59 + 1) Ev.tick from rfl]
    rw [run_countdown 59 { pomoInit with duration := 60, remaining := some 60, start_ts := 0, clock := 1, tickTimerActive := true, pomo_current_cycle := 2, pomo_in_break := false } (by decide) (by decide)]
    rw [if_pos (by decide)]
    decide
  have L6 : pomoP6 = { pomoInit with duration := 60, remaining := some 60, start_ts := 0, clock := 1, tickTimerActive := true, pomo_current_cycle := 3, pomo_in_break := false } := by
    show run pomoP5 pomoSeg = _
    rw [L5]
    rw [show pomoSeg = List.replicate (59 + 1) Ev.tick from rfl]
    rw [run_countdown 59 { pomoInit with duration := 60, remaining := some 60, start_ts := 0, clock := 1, tickTimerActive := true, pomo_current_cycle := 3, pomo_in_break := true } (by decide) (by decide)]
    rw [if_pos (by decide)]
    decide
  have L7 : pomoP7 = { pomoInit with duration := 60, remaining := some 120, start_ts := 0, clock := 1, tickTimerActive := true, pomo_current_cycle := 4, pomo_in_break := true } := by
    show run pomoP6 pomoSeg = _
    rw [L6]
    rw [show pomoSeg = List.replicate (59 + 1) Ev.tick from rfl]
    rw [run_countdown 59 { pomoInit with duration := 60, remaining := some 60, start_ts := 0, clock := 1, tickTimerActive := true, pomo_current_cycle := 3, pomo_in_break := false } (by decide) (by decide)]
    rw [if_pos (by decide)]
    decide
  have L8 : pomoP8 = { pomoInit with duration := 60, remaining := some 60, start_ts := 0, clock := 1, tickTimerActive := true, pomo_current_cycle := 0, pomo_in_break := false } := by
    show run pomoP7 (List.replicate 120 Ev.tick) = _
    rw [L7]
    rw [show (List.replicate 120 Ev.tick : List Ev) = List.replicate (119 + 1) Ev.tick from rfl]
    rw [run_countdown 119 { pomoInit with duration := 60, remaining := some 120, start_ts := 0, clock := 1, tickTimerActive := true, pomo_current_cycle := 4, pomo_in_break := true } (by decide) (by decide)]
    rw [if_pos (by decide)]
    decide
  refine ⟨?_, ?_, ?_, ?_, ?_, ?_, ?_⟩
  · intro s h
    have hb : (!s.pomo_in_break) = true := by rw [h]; rfl
    unfold pomo_next
    rw [if_pos hb]
    exact ⟨rfl, rfl, rfl⟩
  · intro s h
    have hb : ¬((!s.pomo_in_break) = true) := by rw [h]; simp
    unfold pomo_next
    rw [if_neg hb]
    exact ⟨rfl, rfl, rfl⟩
  · exact ⟨by rw [L1], by rw [L1], by rw [L1]⟩
  · exact ⟨by rw [L3], by rw [L3], by rw [L3]⟩
  · exact ⟨by rw [L5], by rw [L5], by rw [L5]⟩
  · exact ⟨by rw [L7], by rw [L7], by rw [L7]⟩
  · exact ⟨by rw [L8], by rw [L8], by rw [L8]⟩

/-- C5 witness: the policy parts of the theorem instantiated at concrete
states (a focus completion from `pomoInit`, and a finished long break with
the counter at 4). -/
theorem C5_pomodoro_policy_witness :
    (pomo_next pomoInit).pomo_current_cycle = pomoInit.pomo_current_cycle + 1
  ∧ (pomo_next { pomoInit with pomo_in_break := true, pomo_current_cycle := 4 }).pomo_current_cycle = 0 := by
  constructor
  · exact (C5_pomodoro_policy.1 pomoInit rfl).1
  · have h := (C5_pomodoro_policy.2.1 { pomoInit with pomo_in_break := true, pomo_current_cycle := 4 } rfl).1
    rw [h]
    decide

